import Mathlib

/-!
Shallow embedding of the `await-me-ts` async outcome adapter
(`src/core.ts` : `createAsyncHandler`) and its three derivatives
(`valueOf`, `isSuccess`, `toResult` built on a shared goStyle handler),
together with the logging helpers (`executeAction`, `handleLog`).

JavaScript values are modelled by the inductive `JSVal` with JS
truthiness; a callable that may `throw` is modelled as a function into
`Except JSVal _`; observable side effects (handler actions, the default
handler, console sinks, configured log functions) are recorded in an
event trace returned next to the result.
-/

namespace AwaitMe

/-- A JavaScript value, as far as the adapter inspects one. -/
inductive JSVal where
  | vNull
  | vUndefined
  | vBool (b : Bool)
  | vNum (n : Int)
  | vStr (s : String)
  | vArr (elems : List JSVal)
  | vObj (fields : List (String × JSVal))

mutual

def decJSVal (a b : JSVal) : Decidable (a = b) := by
  cases a <;> cases b
  case vNull.vNull | vUndefined.vUndefined => exact isTrue rfl
  case vBool.vBool x y | vNum.vNum x y | vStr.vStr x y =>
    exact if h : x = y then isTrue (by rw [h]) else isFalse (by simp [h])
  case vArr.vArr xs ys =>
    exact match decJSValList xs ys with
    | isTrue h => isTrue (by rw [h])
    | isFalse h => isFalse (by simp [h])
  case vObj.vObj xs ys =>
    exact match decJSValFields xs ys with
    | isTrue h => isTrue (by rw [h])
    | isFalse h => isFalse (by simp [h])
  all_goals exact isFalse (fun h => by injection h)

def decJSValList (xs ys : List JSVal) : Decidable (xs = ys) :=
  match xs, ys with
  | [], [] => isTrue rfl
  | [], _ :: _ => isFalse (fun h => by injection h)
  | _ :: _, [] => isFalse (fun h => by injection h)
  | x :: xr, y :: yr =>
    match decJSVal x y with
    | isFalse hx => isFalse (by simp [hx])
    | isTrue hx =>
      match decJSValList xr yr with
      | isFalse hr => isFalse (by simp [hr])
      | isTrue hr => isTrue (by rw [hx, hr])

def decJSValFields (xs ys : List (String × JSVal)) : Decidable (xs = ys) :=
  match xs, ys with
  | [], [] => isTrue rfl
  | [], _ :: _ => isFalse (fun h => by injection h)
  | _ :: _, [] => isFalse (fun h => by injection h)
  | (k1, v1) :: xr, (k2, v2) :: yr =>
    if hk : k1 = k2 then
      match decJSVal v1 v2 with
      | isFalse hv => isFalse (by simp [hv])
      | isTrue hv =>
        match decJSValFields xr yr with
        | isFalse hr => isFalse (by simp [hr])
        | isTrue hr => isTrue (by rw [hk, hv, hr])
    else isFalse (by simp [hk])

end

instance : DecidableEq JSVal := decJSVal

instance {ε α : Type} [DecidableEq ε] [DecidableEq α] :
    DecidableEq (Except ε α) := fun a b =>
  match a, b with
  | .ok x, .ok y =>
    match decEq x y with
    | isTrue h => isTrue (by rw [h])
    | isFalse hn => isFalse (by intro h; injection h; contradiction)
  | .error x, .error y =>
    match decEq x y with
    | isTrue h => isTrue (by rw [h])
    | isFalse hn => isFalse (by intro h; injection h; contradiction)
  | .ok _, .error _ => isFalse (by intro h; injection h)
  | .error _, .ok _ => isFalse (by intro h; injection h)

/-- JS truthiness, as used by `if (err)`, `if (ifTrue(error))`, `payload or-else`. -/
def truthy : JSVal → Bool
  | .vNull => false
  | .vUndefined => false
  | .vBool b => b
  | .vNum n => n != 0
  | .vStr s => s != ""
  | .vArr _ => true
  | .vObj _ => true

/-- Array indexing as used by destructuring `const [err, data] = pair`. -/
def arrGet : JSVal → Nat → JSVal
  | .vArr xs, i => xs.getD i .vUndefined
  | _, _ => .vUndefined

/-- An observable side effect of one adapter or derivative invocation. -/
inductive Event where
  | predCall (id : Nat) (arg : JSVal)
  | actionCall (id : Nat) (arg : JSVal)
  | defaultCall (arg : JSVal)
  | consoleError (msg : String) (payload : JSVal)
  | consoleLog (msg : String) (payload : JSVal)
  | fnCall (id : Nat) (args : List JSVal)
deriving DecidableEq

/-- A settled asynchronous operation: the awaited promise either
resolved with a value or rejected with a reason. -/
inductive Outcome where
  | success (v : JSVal)
  | failure (e : JSVal)

/-- `ConditionalHandler` from `core.ts`: a predicate `ifTrue` and an
action `doIt`, each of which may itself throw; `id` tags the handler so
its invocations are visible in the event trace. -/
structure CondHandler where
  id : Nat
  ifTrue : JSVal → Except JSVal JSVal
  doIt : JSVal → Except JSVal JSVal

/-- `AsyncHandlerConfig` from `core.ts` after defaulting:
`returnStyle` defaults to "goStyle", the chain to `[]`, and
`defaultHandler` to re-raising. -/
structure AsyncHandlerConfig where
  returnStyle : String
  conditionalHandlerChain : List CondHandler
  defaultHandler : JSVal → Except JSVal JSVal

/-- The catch-block loop of `createAsyncHandler`:
`for (const ifTrue-doIt of conditionalHandlerChain) ...`.
A throw from `ifTrue(error)` is not caught anywhere in the source, so it
aborts the walk and propagates (`Except.error`); a throw from
`doIt(error)` is caught by the empty `catch (hErr)` block and discarded.
Returns the final value of `executedConditional` and the trace of
predicate and action invocations. -/
def walkChain (chain : List CondHandler) (e : JSVal) :
    Except JSVal Bool × List Event :=
  match chain with
  | [] => (.ok false, [])
  | h :: rest =>
    match h.ifTrue e with
    | .error perr => (.error perr, [.predCall h.id e])
    | .ok pv =>
      if truthy pv then
        -- try do-it catch ignored; executedConditional := true; break
        let _ := h.doIt e
        (.ok true, [.predCall h.id e, .actionCall h.id e])
      else
        let r := walkChain rest e
        (r.1, .predCall h.id e :: r.2)

/-- One invocation of the function returned by `createAsyncHandler`,
applied to an already-settled operation. On success the chain never
runs; on failure the chain is walked first and then the `returnStyle`
switch decides the output. -/
def runHandler (cfg : AsyncHandlerConfig) (out : Outcome) :
    Except JSVal JSVal × List Event :=
  match out with
  | .success data =>
    match cfg.returnStyle with
    | "goStyle" => (.ok (.vArr [.vNull, data]), [])
    | "only-error" => (.ok (.vNum 0), [])
    | "boolean" => (.ok (.vBool true), [])
    | _ => (.ok data, [])
  | .failure e =>
    match walkChain cfg.conditionalHandlerChain e with
    | (.error perr, tr) => (.error perr, tr)
    | (.ok executedConditional, tr) =>
      match cfg.returnStyle with
      | "goStyle" => (.ok (.vArr [e, .vNull]), tr)
      | "only-error" => (.ok (.vNum 1), tr)
      | "boolean" => (.ok (.vBool false), tr)
      | "false-style" =>
        if executedConditional then (.ok (.vBool false), tr)
        else
          -- try defaultHandler(error) catch ignored
          let _ := cfg.defaultHandler e
          (.ok (.vBool false), tr ++ [.defaultCall e])
      | "true-style" =>
        if executedConditional then (.ok (.vBool true), tr)
        else
          let _ := cfg.defaultHandler e
          (.ok (.vBool true), tr ++ [.defaultCall e])
      | "errorStyle" => (.ok e, tr)
      | _ =>
        -- default: if nothing matched, return defaultHandler(error)
        -- (an uncaught throw from it propagates); otherwise throw error
        if executedConditional then (.error e, tr)
        else
          match cfg.defaultHandler e with
          | .ok v => (.ok v, tr ++ [.defaultCall e])
          | .error derr => (.error derr, tr ++ [.defaultCall e])

/-- True exactly on the six members of `RETURN_STYLES`. -/
def isKnownStyle : String → Bool
  | "goStyle" | "only-error" | "boolean"
  | "false-style" | "true-style" | "errorStyle" => true
  | _ => false

/-- A `LogEntry` from the derivatives module: a plain message string or
an object holding a function `fn` (which may throw) and an optional
`params` array; `id` tags the function for the event trace. -/
inductive LogEntry where
  | str (s : String)
  | fnEntry (id : Nat) (fn : List JSVal → Except JSVal JSVal)
      (params : Option (List JSVal))

/-- A `LogConfig`: a bare message string, or an object with optional
`error` and `success` entries. -/
inductive LogConfig where
  | str (s : String)
  | obj (error : Option LogEntry) (success : Option LogEntry)

/-- JS truthiness of a `LogEntry` (the empty string is falsy). -/
def logEntryTruthy : LogEntry → Bool
  | .str s => s != ""
  | .fnEntry _ _ _ => true

/-- JS truthiness of a `LogConfig` (`if (!config) return`). -/
def logConfigTruthy : LogConfig → Bool
  | .str s => s != ""
  | .obj _ _ => true

/-- The console method the string form of an entry is sent to. -/
inductive LogMethod where
  | error
  | log

/-- `payload or-else the empty string`, with an absent payload modelled
as `none` (JS `undefined`). -/
def payloadOrEmpty : Option JSVal → JSVal
  | some v => if truthy v then v else .vStr ""
  | none => .vStr ""

/-- `executeAction` from the derivatives module. A function entry is
called with exactly its `params` (defaulting to `[]`); its throw is not
caught and propagates. A string entry goes to the console sink together
with `payload or-else empty`. -/
def executeAction (entry : Option LogEntry) (method : LogMethod)
    (payload : Option JSVal) : Except JSVal Unit × List Event :=
  match entry with
  | none => (.ok (), [])
  | some en =>
    if logEntryTruthy en = false then (.ok (), [])
    else
      match en with
      | .fnEntry id fn params =>
        let args := params.getD []
        match fn args with
        | .ok _ => (.ok (), [.fnCall id args])
        | .error ferr => (.error ferr, [.fnCall id args])
      | .str s =>
        match method with
        | .error => (.ok (), [.consoleError s (payloadOrEmpty payload)])
        | .log => (.ok (), [.consoleLog s (payloadOrEmpty payload)])

/-- Which of the two log branches a derivative is taking. -/
inductive LogType where
  | error
  | success

/-- `handleLog` from the derivatives module. A bare string config only
logs on the error branch; an object config dispatches on the branch and
the presence (and truthiness) of the corresponding entry, the success
entry being executed with the `log` method and no payload. -/
def handleLog (config : Option LogConfig) (ty : LogType)
    (payload : Option JSVal) : Except JSVal Unit × List Event :=
  match config with
  | none => (.ok (), [])
  | some c =>
    if logConfigTruthy c = false then (.ok (), [])
    else
      match c with
      | .str s =>
        match ty with
        | .error => executeAction (some (.str s)) .error payload
        | .success => (.ok (), [])
      | .obj errEntry succEntry =>
        match ty with
        | .error =>
          match errEntry with
          | some en =>
            if logEntryTruthy en then executeAction (some en) .error payload
            else (.ok (), [])
          | none => (.ok (), [])
        | .success =>
          match succEntry with
          | some sn =>
            if logEntryTruthy sn then executeAction (some sn) .log none
            else (.ok (), [])
          | none => (.ok (), [])

/-- The shared internal handler the three derivatives are built on:
`createAsyncHandler` with `returnStyle` goStyle and all other fields at
their defaults (empty chain, re-raising default handler). -/
def internalConfig : AsyncHandlerConfig :=
  AsyncHandlerConfig.mk "goStyle" [] (fun e => .error e)

/-- `valueOf` from the derivatives module: destructure the internal
goStyle pair, test `err` for truthiness, log accordingly (a throw from
the logging action is not caught and propagates), and return `false` on
the error branch or the data on the other branch. -/
def valueOf (out : Outcome) (config : Option LogConfig) :
    Except JSVal JSVal × List Event :=
  match runHandler internalConfig out with
  | (.error herr, tr) => (.error herr, tr)
  | (.ok pair, tr) =>
    let err := arrGet pair 0
    let data := arrGet pair 1
    if truthy err then
      match handleLog config .error (some err) with
      | (.ok _, ltr) => (.ok (.vBool false), tr ++ ltr)
      | (.error lerr, ltr) => (.error lerr, tr ++ ltr)
    else
      match handleLog config .success none with
      | (.ok _, ltr) => (.ok data, tr ++ ltr)
      | (.error lerr, ltr) => (.error lerr, tr ++ ltr)

/-- `isSuccess` from the derivatives module: same shape as `valueOf`
but the data is discarded and the branch decides `true` or `false`. -/
def isSuccess (out : Outcome) (config : Option LogConfig) :
    Except JSVal JSVal × List Event :=
  match runHandler internalConfig out with
  | (.error herr, tr) => (.error herr, tr)
  | (.ok pair, tr) =>
    let err := arrGet pair 0
    if truthy err then
      match handleLog config .error (some err) with
      | (.ok _, ltr) => (.ok (.vBool false), tr ++ ltr)
      | (.error lerr, ltr) => (.error lerr, tr ++ ltr)
    else
      match handleLog config .success none with
      | (.ok _, ltr) => (.ok (.vBool true), tr ++ ltr)
      | (.error lerr, ltr) => (.error lerr, tr ++ ltr)

/-- The result object literal of `toResult`. -/
def mkResult (success : Bool) (data : JSVal) (error : JSVal) : JSVal :=
  .vObj [("success", .vBool success), ("data", data), ("error", error)]

/-- `toResult` from the derivatives module: same branch test as
`valueOf`, producing the success-data-error record. -/
def toResult (out : Outcome) (config : Option LogConfig) :
    Except JSVal JSVal × List Event :=
  match runHandler internalConfig out with
  | (.error herr, tr) => (.error herr, tr)
  | (.ok pair, tr) =>
    let err := arrGet pair 0
    let data := arrGet pair 1
    if truthy err then
      match handleLog config .error (some err) with
      | (.ok _, ltr) => (.ok (mkResult false .vNull err), tr ++ ltr)
      | (.error lerr, ltr) => (.error lerr, tr ++ ltr)
    else
      match handleLog config .success none with
      | (.ok _, ltr) => (.ok (mkResult true data .vNull), tr ++ ltr)
      | (.error lerr, ltr) => (.error lerr, tr ++ ltr)

/-!
Theorems settling the claims.
-/

/-- C10: the goStyle output does not determine the settlement outcome —
an operation that succeeds with value null and one that fails with
reason null both yield exactly the pair of two nulls from the shared
internal goStyle handler, and `valueOf` maps the two outcomes to
identical results, so a consumer of the pair cannot distinguish them. -/
theorem goStyle_null_ambiguity :
    runHandler internalConfig (.success .vNull)
      = (.ok (.vArr [.vNull, .vNull]), []) ∧
    runHandler internalConfig (.failure .vNull)
      = (.ok (.vArr [.vNull, .vNull]), []) ∧
    valueOf (.failure .vNull) none = valueOf (.success .vNull) none := by
  decide

/-- C4: on success no conditional handler and no default handler ever
runs (the trace is empty for every config and style); on failure, with
chain H1, H2, H3 where H1's predicate returns a falsy value and H2's a
truthy one, the trace for every return style consists of exactly H1's
and H2's predicate calls and H2's action call: H1's and H3's actions
never run, H3 is not evaluated at all, and the default handler never
runs. -/
theorem conditional_chain_first_match_only
    (style : String) (dflt : JSVal → Except JSVal JSVal)
    (h1 h2 h3 : CondHandler) (e v1 v2 : JSVal)
    (h1p : h1.ifTrue e = .ok v1) (h1f : truthy v1 = false)
    (h2p : h2.ifTrue e = .ok v2) (h2t : truthy v2 = true) :
    (∀ (cfg : AsyncHandlerConfig) (v : JSVal),
      (runHandler cfg (.success v)).2 = []) ∧
    (runHandler (AsyncHandlerConfig.mk style [h1, h2, h3] dflt)
        (.failure e)).2
      = [.predCall h1.id e, .predCall h2.id e, .actionCall h2.id e] := by
  constructor
  · intro cfg v
    simp only [runHandler]
    split <;> rfl
  · have hw : walkChain [h1, h2, h3] e
        = (.ok true, [.predCall h1.id e, .predCall h2.id e,
            .actionCall h2.id e]) := by
      simp [walkChain, h1p, h1f, h2p, h2t]
    simp only [runHandler, hw]
    split <;> simp

/-- C4 witness: a concrete three-handler chain where the second
predicate is the first to match. -/
theorem conditional_chain_first_match_only_witness :
    (CondHandler.mk 1 (fun _ => .ok (.vBool false)) (fun _ => .ok .vNull)).ifTrue
        (.vStr "e") = .ok (.vBool false) ∧
    truthy (.vBool false) = false ∧
    (CondHandler.mk 2 (fun _ => .ok (.vBool true)) (fun _ => .ok .vNull)).ifTrue
        (.vStr "e") = .ok (.vBool true) ∧
    truthy (.vBool true) = true ∧
    (runHandler (AsyncHandlerConfig.mk "goStyle"
        [CondHandler.mk 1 (fun _ => .ok (.vBool false)) (fun _ => .ok .vNull),
         CondHandler.mk 2 (fun _ => .ok (.vBool true)) (fun _ => .ok .vNull),
         CondHandler.mk 3 (fun _ => .ok (.vBool true)) (fun _ => .ok .vNull)]
        (fun er => .error er)) (.failure (.vStr "e"))).2
      = [.predCall 1 (.vStr "e"), .predCall 2 (.vStr "e"),
         .actionCall 2 (.vStr "e")] :=
  ⟨rfl, rfl, rfl, rfl,
    (conditional_chain_first_match_only "goStyle" (fun er => .error er)
      (CondHandler.mk 1 (fun _ => .ok (.vBool false)) (fun _ => .ok .vNull))
      (CondHandler.mk 2 (fun _ => .ok (.vBool true)) (fun _ => .ok .vNull))
      (CondHandler.mk 3 (fun _ => .ok (.vBool true)) (fun _ => .ok .vNull))
      (.vStr "e") (.vBool false) (.vBool true)
      rfl rfl rfl rfl).2⟩

/-- C5: for goStyle, only-error and boolean the output is determined
solely by which way the operation settles, whenever the chain walk
itself completes (no predicate throws): goStyle yields the pair
null-value on success and reason-null on failure, only-error yields 0
and 1, boolean yields true and false, for every value and reason
including falsy ones. -/
theorem settlement_determines_output
    (chain : List CondHandler) (dflt : JSVal → Except JSVal JSVal)
    (v e : JSVal) (b : Bool) (tr : List Event)
    (hwalk : walkChain chain e = (.ok b, tr)) :
    runHandler (AsyncHandlerConfig.mk "goStyle" chain dflt) (.success v)
      = (.ok (.vArr [.vNull, v]), []) ∧
    runHandler (AsyncHandlerConfig.mk "goStyle" chain dflt) (.failure e)
      = (.ok (.vArr [e, .vNull]), tr) ∧
    runHandler (AsyncHandlerConfig.mk "only-error" chain dflt) (.success v)
      = (.ok (.vNum 0), []) ∧
    runHandler (AsyncHandlerConfig.mk "only-error" chain dflt) (.failure e)
      = (.ok (.vNum 1), tr) ∧
    runHandler (AsyncHandlerConfig.mk "boolean" chain dflt) (.success v)
      = (.ok (.vBool true), []) ∧
    runHandler (AsyncHandlerConfig.mk "boolean" chain dflt) (.failure e)
      = (.ok (.vBool false), tr) := by
  simp [runHandler, hwalk]

/-- C5 witness: falsy success value 0 and falsy failure reason the
empty string, with an empty chain. -/
theorem settlement_determines_output_witness :
    walkChain [] (.vStr "") = (.ok false, []) ∧
    runHandler (AsyncHandlerConfig.mk "goStyle" [] (fun er => .error er))
        (.success (.vNum 0))
      = (.ok (.vArr [.vNull, .vNum 0]), []) ∧
    runHandler (AsyncHandlerConfig.mk "goStyle" [] (fun er => .error er))
        (.failure (.vStr ""))
      = (.ok (.vArr [.vStr "", .vNull]), []) ∧
    runHandler (AsyncHandlerConfig.mk "only-error" [] (fun er => .error er))
        (.failure (.vStr ""))
      = (.ok (.vNum 1), []) ∧
    runHandler (AsyncHandlerConfig.mk "boolean" [] (fun er => .error er))
        (.failure (.vStr ""))
      = (.ok (.vBool false), []) :=
  ⟨rfl,
    (settlement_determines_output [] (fun er => .error er)
      (.vNum 0) (.vStr "") false [] rfl).1,
    (settlement_determines_output [] (fun er => .error er)
      (.vNum 0) (.vStr "") false [] rfl).2.1,
    (settlement_determines_output [] (fun er => .error er)
      (.vNum 0) (.vStr "") false [] rfl).2.2.2.1,
    (settlement_determines_output [] (fun er => .error er)
      (.vNum 0) (.vStr "") false [] rfl).2.2.2.2.2⟩

/-- C6: for false-style and true-style, success returns the settled
value unchanged (even when falsy); on failure (with the chain walk
completing) the default handler is invoked exactly once with the
failure reason if and only if no conditional handler matched — its own
throw swallowed, since the default handler is unconstrained here — and
the fixed boolean is returned regardless. -/
theorem shielding_styles_behavior
    (chain : List CondHandler) (dflt : JSVal → Except JSVal JSVal)
    (v e : JSVal) (b : Bool) (tr : List Event)
    (hwalk : walkChain chain e = (.ok b, tr)) :
    runHandler (AsyncHandlerConfig.mk "false-style" chain dflt) (.success v)
      = (.ok v, []) ∧
    runHandler (AsyncHandlerConfig.mk "true-style" chain dflt) (.success v)
      = (.ok v, []) ∧
    runHandler (AsyncHandlerConfig.mk "false-style" chain dflt) (.failure e)
      = (.ok (.vBool false), tr ++ (if b then [] else [.defaultCall e])) ∧
    runHandler (AsyncHandlerConfig.mk "true-style" chain dflt) (.failure e)
      = (.ok (.vBool true), tr ++ (if b then [] else [.defaultCall e])) := by
  cases b <;> simp [runHandler, hwalk]

/-- C6 witness: empty chain (no match) and a default handler that
itself throws — the fixed booleans are still returned, with exactly one
default-handler call in the trace. -/
theorem shielding_styles_behavior_witness :
    walkChain [] (.vNum 500) = (.ok false, []) ∧
    runHandler (AsyncHandlerConfig.mk "false-style" []
        (fun _ => .error (.vStr "handlerBoom"))) (.success (.vBool false))
      = (.ok (.vBool false), []) ∧
    runHandler (AsyncHandlerConfig.mk "false-style" []
        (fun _ => .error (.vStr "handlerBoom"))) (.failure (.vNum 500))
      = (.ok (.vBool false), [.defaultCall (.vNum 500)]) ∧
    runHandler (AsyncHandlerConfig.mk "true-style" []
        (fun _ => .error (.vStr "handlerBoom"))) (.failure (.vNum 500))
      = (.ok (.vBool true), [.defaultCall (.vNum 500)]) :=
  ⟨rfl,
    (shielding_styles_behavior [] (fun _ => .error (.vStr "handlerBoom"))
      (.vBool false) (.vNum 500) false [] rfl).1,
    (shielding_styles_behavior [] (fun _ => .error (.vStr "handlerBoom"))
      (.vBool false) (.vNum 500) false [] rfl).2.2.1,
    (shielding_styles_behavior [] (fun _ => .error (.vStr "handlerBoom"))
      (.vBool false) (.vNum 500) false [] rfl).2.2.2⟩

/-- C2 counterexample: with a goStyle config whose single conditional
handler has a throwing predicate, a failing operation makes the adapter
invocation itself reject with the predicate's throw instead of
returning the style-appropriate goStyle pair. -/
theorem predicate_throw_counterexample :
    runHandler
        (AsyncHandlerConfig.mk "goStyle"
          [CondHandler.mk 0 (fun _ => .error (.vStr "predBoom"))
            (fun _ => .ok .vNull)]
          (fun er => .error er))
        (.failure (.vStr "x"))
      = (.error (.vStr "predBoom"), [.predCall 0 (.vStr "x")]) ∧
    (runHandler
        (AsyncHandlerConfig.mk "goStyle"
          [CondHandler.mk 0 (fun _ => .error (.vStr "predBoom"))
            (fun _ => .ok .vNull)]
          (fun er => .error er))
        (.failure (.vStr "x"))).1
      ≠ .ok (.vArr [.vStr "x", .vNull]) := by
  decide

/-- C2 amended: provided the chain walk completes (no conditional
handler predicate throws while being evaluated), a throw from a
conditional handler's action or from the default handler is swallowed
and each recognized return style still produces its normal failure
output; a predicate throw, by contrast, propagates to the caller, as
does a default-handler throw under an unrecognized style. -/
theorem known_styles_swallow_handler_throws
    (chain : List CondHandler) (dflt : JSVal → Except JSVal JSVal)
    (e : JSVal) (b : Bool) (tr : List Event)
    (hwalk : walkChain chain e = (.ok b, tr)) :
    (runHandler (AsyncHandlerConfig.mk "goStyle" chain dflt)
        (.failure e)).1 = .ok (.vArr [e, .vNull]) ∧
    (runHandler (AsyncHandlerConfig.mk "only-error" chain dflt)
        (.failure e)).1 = .ok (.vNum 1) ∧
    (runHandler (AsyncHandlerConfig.mk "boolean" chain dflt)
        (.failure e)).1 = .ok (.vBool false) ∧
    (runHandler (AsyncHandlerConfig.mk "false-style" chain dflt)
        (.failure e)).1 = .ok (.vBool false) ∧
    (runHandler (AsyncHandlerConfig.mk "true-style" chain dflt)
        (.failure e)).1 = .ok (.vBool true) ∧
    (runHandler (AsyncHandlerConfig.mk "errorStyle" chain dflt)
        (.failure e)).1 = .ok e := by
  cases b <;> simp [runHandler, hwalk]

/-- C2 witness: a chain whose matching handler has a throwing action,
together with a throwing default handler; the false-style output is
still the fixed boolean. -/
theorem known_styles_swallow_handler_throws_witness :
    walkChain
        [CondHandler.mk 1 (fun _ => .ok (.vBool true))
          (fun _ => .error (.vStr "actionBoom"))] (.vStr "err")
      = (.ok true, [.predCall 1 (.vStr "err"), .actionCall 1 (.vStr "err")]) ∧
    (runHandler
        (AsyncHandlerConfig.mk "false-style"
          [CondHandler.mk 1 (fun _ => .ok (.vBool true))
            (fun _ => .error (.vStr "actionBoom"))]
          (fun _ => .error (.vStr "defaultBoom")))
        (.failure (.vStr "err"))).1 = .ok (.vBool false) :=
  ⟨rfl,
    (known_styles_swallow_handler_throws
      [CondHandler.mk 1 (fun _ => .ok (.vBool true))
        (fun _ => .error (.vStr "actionBoom"))]
      (fun _ => .error (.vStr "defaultBoom"))
      (.vStr "err") true
      [.predCall 1 (.vStr "err"), .actionCall 1 (.vStr "err")]
      rfl).2.2.2.1⟩

/-- C7: for an unrecognized return style on failure (with the chain
walk completing): if a conditional handler matched, the adapter
re-raises the original failure reason without calling the default
handler; if none matched, the adapter returns the value produced by the
default handler, having invoked it once. -/
theorem fallback_style_behavior
    (style : String) (chain : List CondHandler)
    (dflt : JSVal → Except JSVal JSVal) (e : JSVal) (b : Bool)
    (tr : List Event)
    (hstyle : isKnownStyle style = false)
    (hwalk : walkChain chain e = (.ok b, tr)) :
    (b = true →
      runHandler (AsyncHandlerConfig.mk style chain dflt) (.failure e)
        = (.error e, tr)) ∧
    (b = false → ∀ v, dflt e = .ok v →
      runHandler (AsyncHandlerConfig.mk style chain dflt) (.failure e)
        = (.ok v, tr ++ [.defaultCall e])) := by
  constructor
  · intro hb
    subst hb
    simp only [runHandler, hwalk]
    split
    all_goals first
      | rfl
      | (exfalso; simp_all [isKnownStyle])
  · intro hb v hv
    subst hb
    simp only [runHandler, hwalk]
    split
    all_goals first
      | (exfalso; simp_all [isKnownStyle]; done)
      | (simp [hv])

/-- C7 witness: the unrecognized style "mystery" with an empty chain
and a default handler returning the number 7: the adapter's output is
that value, after one default-handler call. -/
theorem fallback_style_behavior_witness :
    isKnownStyle "mystery" = false ∧
    walkChain [] (.vStr "x") = (.ok false, []) ∧
    runHandler
        (AsyncHandlerConfig.mk "mystery" [] (fun _ => .ok (.vNum 7)))
        (.failure (.vStr "x"))
      = (.ok (.vNum 7), [.defaultCall (.vStr "x")]) :=
  ⟨rfl, rfl,
    (fallback_style_behavior "mystery" [] (fun _ => .ok (.vNum 7))
      (.vStr "x") false [] rfl rfl).2 rfl (.vNum 7) rfl⟩

/-- C1 counterexample: an operation failing with the falsy reason 0
makes the internal goStyle pair's first slot falsy, so `isSuccess`
returns true — not false — and `valueOf` returns the null data slot,
with the success log action (not the error one) run. -/
theorem falsy_reason_counterexample :
    isSuccess (.failure (.vNum 0))
        (some (.obj (some (.str "E")) (some (.str "S"))))
      = (.ok (.vBool true), [.consoleLog "S" (.vStr "")]) ∧
    valueOf (.failure (.vNum 0))
        (some (.obj (some (.str "E")) (some (.str "S"))))
      = (.ok .vNull, [.consoleLog "S" (.vStr "")]) ∧
    (isSuccess (.failure (.vNum 0))
        (some (.obj (some (.str "E")) (some (.str "S"))))).1
      ≠ .ok (.vBool false) := by
  decide

/-- C1 amended: for every operation failing with a truthy reason and
every logConfig whose error branch does not throw, `valueOf` and
`isSuccess` return false and perform exactly the error log action's
events (never the success one); a falsy failure reason instead takes
the success path. -/
theorem valueOf_isSuccess_truthy_failure
    (e : JSVal) (cfg : Option LogConfig) (ltr : List Event)
    (he : truthy e = true)
    (hlog : handleLog cfg .error (some e) = (.ok (), ltr)) :
    valueOf (.failure e) cfg = (.ok (.vBool false), ltr) ∧
    isSuccess (.failure e) cfg = (.ok (.vBool false), ltr) := by
  have hrun : runHandler internalConfig (.failure e)
      = (.ok (.vArr [e, .vNull]), []) := by
    simp [runHandler, internalConfig, walkChain]
  constructor <;> simp [valueOf, isSuccess, hrun, arrGet, he, hlog]

/-- C1 witness: a truthy failure reason with a two-sided string log
config; the error sink receives the message and the reason. -/
theorem valueOf_isSuccess_truthy_failure_witness :
    truthy (.vStr "Boom") = true ∧
    handleLog (some (.obj (some (.str "E")) (some (.str "S")))) .error
        (some (.vStr "Boom"))
      = (.ok (), [.consoleError "E" (.vStr "Boom")]) ∧
    valueOf (.failure (.vStr "Boom"))
        (some (.obj (some (.str "E")) (some (.str "S"))))
      = (.ok (.vBool false), [.consoleError "E" (.vStr "Boom")]) ∧
    isSuccess (.failure (.vStr "Boom"))
        (some (.obj (some (.str "E")) (some (.str "S"))))
      = (.ok (.vBool false), [.consoleError "E" (.vStr "Boom")]) :=
  ⟨rfl, rfl,
    (valueOf_isSuccess_truthy_failure (.vStr "Boom")
      (some (.obj (some (.str "E")) (some (.str "S"))))
      [.consoleError "E" (.vStr "Boom")] rfl rfl).1,
    (valueOf_isSuccess_truthy_failure (.vStr "Boom")
      (some (.obj (some (.str "E")) (some (.str "S"))))
      [.consoleError "E" (.vStr "Boom")] rfl rfl).2⟩

/-- C3 counterexample: a configured logging function that throws makes
`valueOf` itself reject with that throw instead of returning its normal
false output. -/
theorem logging_throw_counterexample :
    valueOf (.failure (.vStr "Boom"))
        (some (.obj
          (some (.fnEntry 7 (fun _ => .error (.vStr "logBoom")) none))
          none))
      = (.error (.vStr "logBoom"), [.fnCall 7 []]) ∧
    (valueOf (.failure (.vStr "Boom"))
        (some (.obj
          (some (.fnEntry 7 (fun _ => .error (.vStr "logBoom")) none))
          none))).1
      ≠ .ok (.vBool false) := by
  decide

/-- C3 amended: each derivative's output is exactly the result of its
logging call mapped onto the derivative's normal output — so when the
configured logging action throws, the throw propagates out of
`valueOf`, `isSuccess` and `toResult`, and only when logging completes
does the derivative return its normal output. Stated for success
outcomes and truthy failure reasons. -/
theorem derivative_output_follows_logging
    (v e : JSVal) (cfg : Option LogConfig) (he : truthy e = true) :
    valueOf (.success v) cfg
      = ((handleLog cfg .success none).1.map (fun _ => v),
         (handleLog cfg .success none).2) ∧
    valueOf (.failure e) cfg
      = ((handleLog cfg .error (some e)).1.map (fun _ => JSVal.vBool false),
         (handleLog cfg .error (some e)).2) ∧
    isSuccess (.success v) cfg
      = ((handleLog cfg .success none).1.map (fun _ => JSVal.vBool true),
         (handleLog cfg .success none).2) ∧
    isSuccess (.failure e) cfg
      = ((handleLog cfg .error (some e)).1.map (fun _ => JSVal.vBool false),
         (handleLog cfg .error (some e)).2) ∧
    toResult (.success v) cfg
      = ((handleLog cfg .success none).1.map (fun _ => mkResult true v .vNull),
         (handleLog cfg .success none).2) ∧
    toResult (.failure e) cfg
      = ((handleLog cfg .error (some e)).1.map
           (fun _ => mkResult false .vNull e),
         (handleLog cfg .error (some e)).2) := by
  have hrunS : runHandler internalConfig (.success v)
      = (.ok (.vArr [.vNull, v]), []) := by
    simp [runHandler, internalConfig]
  have hrunF : runHandler internalConfig (.failure e)
      = (.ok (.vArr [e, .vNull]), []) := by
    simp [runHandler, internalConfig, walkChain]
  have hnull : truthy .vNull = false := rfl
  rcases hS : handleLog cfg .success none with ⟨rs, strace⟩
  rcases hF : handleLog cfg .error (some e) with ⟨rf, ftrace⟩
  cases rs <;> cases rf <;>
    simp [valueOf, isSuccess, toResult, hrunS, hrunF, arrGet, hnull,
      he, hS, hF, Except.map]

/-- C3 witness: with a throwing error-log function, `valueOf` on a
truthy failure rejects with the logging throw, matching the
characterization. -/
theorem derivative_output_follows_logging_witness :
    truthy (.vStr "Boom") = true ∧
    valueOf (.failure (.vStr "Boom"))
        (some (.obj
          (some (.fnEntry 9 (fun _ => .error (.vStr "sinkBoom")) none))
          none))
      = ((handleLog
            (some (.obj
              (some (.fnEntry 9 (fun _ => .error (.vStr "sinkBoom")) none))
              none)) .error (some (.vStr "Boom"))).1.map
           (fun _ => JSVal.vBool false),
         (handleLog
            (some (.obj
              (some (.fnEntry 9 (fun _ => .error (.vStr "sinkBoom")) none))
              none)) .error (some (.vStr "Boom"))).2) :=
  ⟨rfl,
    (derivative_output_follows_logging .vNull (.vStr "Boom")
      (some (.obj
        (some (.fnEntry 9 (fun _ => .error (.vStr "sinkBoom")) none))
        none)) rfl).2.1⟩

/-- C8 counterexample: an operation failing with the falsy reason
false is reported by `toResult` as a success with null data, not as the
failure record the claim requires. -/
theorem toResult_falsy_reason_counterexample :
    toResult (.failure (.vBool false)) none
      = (.ok (mkResult true .vNull .vNull), []) ∧
    (toResult (.failure (.vBool false)) none).1
      ≠ .ok (mkResult false .vNull (.vBool false)) := by
  decide

/-- C8 amended: `toResult` returns the success record with the settled
data (including the success value false, thereby distinguished from a
failure) and the failure record with the reason for every truthy
failure reason; a falsy failure reason is misreported as a success with
null data. -/
theorem toResult_truthy_spec (v e : JSVal) (he : truthy e = true) :
    toResult (.success v) none = (.ok (mkResult true v .vNull), []) ∧
    toResult (.failure e) none = (.ok (mkResult false .vNull e), []) := by
  have hrunS : runHandler internalConfig (.success v)
      = (.ok (.vArr [.vNull, v]), []) := by
    simp [runHandler, internalConfig]
  have hrunF : runHandler internalConfig (.failure e)
      = (.ok (.vArr [e, .vNull]), []) := by
    simp [runHandler, internalConfig, walkChain]
  have hnull : truthy .vNull = false := rfl
  constructor <;>
    simp [toResult, hrunS, hrunF, arrGet, hnull, he, handleLog]

/-- C8 witness: the success value false yields the success record with
data false, while the truthy failure "Crash" yields the failure
record. -/
theorem toResult_truthy_spec_witness :
    truthy (.vStr "Crash") = true ∧
    toResult (.success (.vBool false)) none
      = (.ok (mkResult true (.vBool false) .vNull), []) ∧
    toResult (.failure (.vStr "Crash")) none
      = (.ok (mkResult false .vNull (.vStr "Crash")), []) :=
  ⟨rfl,
    (toResult_truthy_spec (.vBool false) (.vStr "Crash") rfl).1,
    (toResult_truthy_spec (.vBool false) (.vStr "Crash") rfl).2⟩

/-- C9 counterexample: a function-entry error log is executed with its
supplied params only — the failure reason is not appended as an extra
argument. -/
theorem log_fn_params_counterexample :
    valueOf (.failure (.vStr "Boom"))
        (some (.obj
          (some (.fnEntry 3 (fun _ => .ok .vNull) (some [.vStr "a"])))
          none))
      = (.ok (.vBool false), [.fnCall 3 [.vStr "a"]]) ∧
    (valueOf (.failure (.vStr "Boom"))
        (some (.obj
          (some (.fnEntry 3 (fun _ => .ok .vNull) (some [.vStr "a"])))
          none))).2
      ≠ [.fnCall 3 [.vStr "a", .vStr "Boom"]] := by
  decide

/-- C9 amended: on a truthy failure, a function-entry error log runs
the function with exactly the supplied params (the reason is not
appended), while a plain message-string error entry sends the message
together with the failure reason to the console error sink. -/
theorem logging_helper_arguments
    (e : JSVal) (id : Nat) (fn : List JSVal → Except JSVal JSVal)
    (params : List JSVal) (succEntry : Option LogEntry) (u : JSVal)
    (s : String)
    (he : truthy e = true) (hfn : fn params = .ok u) (hs : s ≠ "") :
    valueOf (.failure e)
        (some (.obj (some (.fnEntry id fn (some params))) succEntry))
      = (.ok (.vBool false), [.fnCall id params]) ∧
    valueOf (.failure e) (some (.str s))
      = (.ok (.vBool false), [.consoleError s e]) := by
  have hrunF : runHandler internalConfig (.failure e)
      = (.ok (.vArr [e, .vNull]), []) := by
    simp [runHandler, internalConfig, walkChain]
  constructor <;>
    simp [valueOf, hrunF, arrGet, he, handleLog, logConfigTruthy,
      logEntryTruthy, executeAction, payloadOrEmpty, hfn, hs]

/-- C9 witness: the error function entry with one supplied param runs
with just that param; the string config "Custom Error Msg" reaches the
error sink together with the reason. -/
theorem logging_helper_arguments_witness :
    truthy (.vStr "Boom") = true ∧
    (fun _ => Except.ok JSVal.vNull : List JSVal → Except JSVal JSVal)
        [.vStr "a"] = .ok .vNull ∧
    "Custom Error Msg" ≠ "" ∧
    valueOf (.failure (.vStr "Boom"))
        (some (.obj
          (some (.fnEntry 3 (fun _ => .ok .vNull) (some [.vStr "a"])))
          none))
      = (.ok (.vBool false), [.fnCall 3 [.vStr "a"]]) ∧
    valueOf (.failure (.vStr "Boom")) (some (.str "Custom Error Msg"))
      = (.ok (.vBool false),
         [.consoleError "Custom Error Msg" (.vStr "Boom")]) :=
  ⟨rfl, rfl, by decide,
    (logging_helper_arguments (.vStr "Boom") 3 (fun _ => .ok .vNull)
      [.vStr "a"] none .vNull "Custom Error Msg" rfl rfl (by decide)).1,
    (logging_helper_arguments (.vStr "Boom") 3 (fun _ => .ok .vNull)
      [.vStr "a"] none .vNull "Custom Error Msg" rfl rfl (by decide)).2⟩

end AwaitMe
